import Mathlib

/-!
Verification of the AI-Economy-Protocol escrow / x402 payment stack.

The definitions below are a shallow embedding of the Python sources:

* `agents/x402/proof_verifier.py`   — `ProofVerifier.verify_proof`
* `agents/x402/payment_gateway.py`  — `claim_payment` endpoint
* `agents/x402/payment_verifier.py` — `PaymentVerifier.verify_x_payment_header`,
  `_verify_escrow_on_chain`, `_compute_task_hash`
* `agents/x402/escrow_payment.py`   — `create_escrow_transaction`
* `agents/utils/solana_utils.py`    — `tokens_to_smallest_unit`, `sol_to_lamports`
* `contracts/client/escrow_client.py` — `derive_escrow_pda`, `check_escrow_exists`,
  `hash_task`
* `contracts/client/gateway_escrow_client.py` — `initialize_escrow_via_gateway`

Machine integers are modelled as `Nat` with explicit reductions mod `2^32` /
`2^64`, byte strings as `List Nat` (each entry a byte value), fallible code as
`Except` / `Option`.  Network and ledger interaction is passed in explicitly as
data (account reads as `Except String (Option AccountInfo)`, transaction
submission outcomes as `Except String String`), so each handler becomes a pure
function of its inputs and the observed chain state.
-/

set_option maxRecDepth 100000

namespace AEP

/-! ## SHA-256 (executable reference implementation)

The Python sources hash with `hashlib.sha256`.  The implementation below is a
byte-level SHA-256 over `List Nat`, used both for task hashes and for the
Anchor instruction discriminators. -/

/-- 32-bit mask. -/
def mask32 : Nat := 4294967295

/-- Addition modulo `2^32`. -/
def add32 (a b : Nat) : Nat := (a + b) % 4294967296

/-- Right rotation of a 32-bit word. -/
def rotr32 (n x : Nat) : Nat := ((x >>> n) ||| (x <<< (32 - n))) &&& mask32

/-- SHA-256 `Ch` function (bitwise choice). -/
def shaCh (x y z : Nat) : Nat := (x &&& y) ^^^ ((x ^^^ mask32) &&& z)

/-- SHA-256 `Maj` function (bitwise majority). -/
def shaMaj (x y z : Nat) : Nat := (x &&& y) ^^^ (x &&& z) ^^^ (y &&& z)

/-- SHA-256 big sigma 0. -/
def bigSigma0 (x : Nat) : Nat := rotr32 2 x ^^^ rotr32 13 x ^^^ rotr32 22 x

/-- SHA-256 big sigma 1. -/
def bigSigma1 (x : Nat) : Nat := rotr32 6 x ^^^ rotr32 11 x ^^^ rotr32 25 x

/-- SHA-256 small sigma 0. -/
def smallSigma0 (x : Nat) : Nat := rotr32 7 x ^^^ rotr32 18 x ^^^ (x >>> 3)

/-- SHA-256 small sigma 1. -/
def smallSigma1 (x : Nat) : Nat := rotr32 17 x ^^^ rotr32 19 x ^^^ (x >>> 10)

/-- The 64 SHA-256 round constants (FIPS 180-4, written in decimal). -/
def shaK : List Nat :=
  [1116352408, 1899447441, 3049323471, 3921009573, 961987163, 1508970993,
   2453635748, 2870763221, 3624381080, 310598401, 607225278, 1426881987,
   1925078388, 2162078206, 2614888103, 3248222580, 3835390401, 4022224774,
   264347078, 604807628, 770255983, 1249150122, 1555081692, 1996064986,
   2554220882, 2821834349, 2952996808, 3210313671, 3336571891, 3584528711,
   113926993, 338241895, 666307205, 773529912, 1294757372, 1396182291,
   1695183700, 1986661051, 2177026350, 2456956037, 2730485921, 2820302411,
   3259730800, 3345764771, 3516065817, 3600352804, 4094571909, 275423344,
   430227734, 506948616, 659060556, 883997877, 958139571, 1322822218,
   1537002063, 1747873779, 1955562222, 2024104815, 2227730452, 2361852424,
   2428436474, 2756734187, 3204031479, 3329325298]

/-- The SHA-256 initial hash state (FIPS 180-4, written in decimal). -/
def shaH0 : List Nat :=
  [1779033703, 3144134277, 1013904242, 2773480762,
   1359893119, 2600822924, 528734635, 1541459225]

/-- Combine bytes into 32-bit words, big endian. -/
def bytesToWordsBE : List Nat → List Nat
  | b0 :: b1 :: b2 :: b3 :: rest =>
      ((((b0 <<< 8) ||| b1) <<< 8 ||| b2) <<< 8 ||| b3) :: bytesToWordsBE rest
  | _ => []

/-- Split a 32-bit word into 4 bytes, big endian. -/
def wordBytesBE (w : Nat) : List Nat :=
  [(w >>> 24) &&& 255, (w >>> 16) &&& 255, (w >>> 8) &&& 255, w &&& 255]

/-- The 8-byte big-endian encoding of the message bit length. -/
def lenBytesBE (bits : Nat) : List Nat :=
  [(bits >>> 56) &&& 255, (bits >>> 48) &&& 255, (bits >>> 40) &&& 255,
   (bits >>> 32) &&& 255, (bits >>> 24) &&& 255, (bits >>> 16) &&& 255,
   (bits >>> 8) &&& 255, bits &&& 255]

/-- SHA-256 padding: `0x80`, zeros to 56 mod 64, then the 64-bit bit length. -/
def padMessage (msg : List Nat) : List Nat :=
  let len := msg.length
  let zeros := (119 - (len % 64)) % 64
  msg ++ 128 :: List.replicate zeros 0 ++ lenBytesBE (len * 8)

/-- Extend the 16 block words to the 64-entry message schedule. -/
def shaSchedule (ws : Array Nat) : Array Nat :=
  (List.range 48).foldl
    (fun w t =>
      let i := t + 16
      w.push (add32
        (add32 (smallSigma1 (w.getD (i - 2) 0)) (w.getD (i - 7) 0))
        (add32 (smallSigma0 (w.getD (i - 15) 0)) (w.getD (i - 16) 0))))
    ws

/-- One SHA-256 compression step over a 64-byte block. -/
def compressBlock (h : List Nat) (block : List Nat) : List Nat :=
  let w := shaSchedule (bytesToWordsBE block).toArray
  let st0 := (h.getD 0 0, h.getD 1 0, h.getD 2 0, h.getD 3 0,
              h.getD 4 0, h.getD 5 0, h.getD 6 0, h.getD 7 0)
  let stN := (List.range 64).foldl
    (fun st t =>
      match st with
      | (a, b, c, d, e, f, g, hh) =>
        let t1 := add32 (add32 (add32 hh (bigSigma1 e))
                               (add32 (shaCh e f g) (shaK.getD t 0)))
                        (w.getD t 0)
        let t2 := add32 (bigSigma0 a) (shaMaj a b c)
        (add32 t1 t2, a, b, c, add32 d t1, e, f, g))
    st0
  match stN with
  | (a, b, c, d, e, f, g, hh) =>
    [add32 (h.getD 0 0) a, add32 (h.getD 1 0) b, add32 (h.getD 2 0) c,
     add32 (h.getD 3 0) d, add32 (h.getD 4 0) e, add32 (h.getD 5 0) f,
     add32 (h.getD 6 0) g, add32 (h.getD 7 0) hh]

/-- Split a byte list into 64-byte chunks (fuel-driven so it reduces). -/
def chunks64 : Nat → List Nat → List (List Nat)
  | 0, _ => []
  | _, [] => []
  | fuel + 1, l => l.take 64 :: chunks64 fuel (l.drop 64)

/-- SHA-256 of a byte list, as the 32 digest bytes. -/
def sha256 (msg : List Nat) : List Nat :=
  let padded := padMessage msg
  let blocks := chunks64 padded.length padded
  let hh := blocks.foldl compressBlock shaH0
  (hh.map wordBytesBE).flatten

/-! ## Byte and text encoding helpers -/

/-- UTF-8 encoding of a single character (as Python `str.encode` does). -/
def utf8EncodeChar (c : Char) : List Nat :=
  let n := c.toNat
  if n < 128 then [n]
  else if n < 2048 then [192 ||| (n >>> 6), 128 ||| (n &&& 63)]
  else if n < 65536 then
    [224 ||| (n >>> 12), 128 ||| ((n >>> 6) &&& 63), 128 ||| (n &&& 63)]
  else
    [240 ||| (n >>> 18), 128 ||| ((n >>> 12) &&& 63),
     128 ||| ((n >>> 6) &&& 63), 128 ||| (n &&& 63)]

/-- UTF-8 bytes of a string. -/
def utf8Bytes (s : String) : List Nat := (s.data.map utf8EncodeChar).flatten

/-- Lower-case hex digit for a value below 16. -/
def hexDigit (n : Nat) : Char :=
  Char.ofNat (if n < 10 then 48 + n else 87 + n)

/-- Two lower-case hex characters of one byte (Python `bytes.hex`). -/
def byteHex (b : Nat) : List Char := [hexDigit (b / 16), hexDigit (b % 16)]

/-- Lower-case hex string of a byte list (Python `bytes.hex`). -/
def bytesToHex (bs : List Nat) : String := String.mk (bs.map byteHex).flatten

/-- Little-endian 8-byte encoding of a `u64`, as `struct.pack "<Q"`. -/
def u64le (n : Nat) : List Nat :=
  [n % 256, n / 256 % 256, n / 65536 % 256, n / 16777216 % 256,
   n / 4294967296 % 256, n / 1099511627776 % 256,
   n / 281474976710656 % 256, n / 72057594037927936 % 256]

/-- Little-endian 4-byte encoding of a `u32`, as `struct.pack "<I"`. -/
def u32le (n : Nat) : List Nat :=
  [n % 256, n / 256 % 256, n / 65536 % 256, n / 16777216 % 256]

/-- Decode a little-endian byte list back to a number. -/
def leDecode : List Nat → Nat
  | [] => 0
  | b :: rest => b + 256 * leDecode rest

/-- Python truthiness of an optional string: present and non-empty
(`if not s` in the source rejects both `None` and `""`). -/
def strPresent : Option String → Bool
  | none => false
  | some s => s != ""

/-- Python truthiness of an optional integer: present and non-zero
(`if not nonce` in the source rejects both `None` and `0`). -/
def noncePresent : Option Nat → Bool
  | none => false
  | some n => n != 0

/-! ## Ledger accounts -/

/-- A ledger account as observed through `get_account_info`: raw data bytes and
the lamport balance. -/
structure AccountInfo where
  data : List Nat
  lamports : Nat
deriving DecidableEq

/-- Modelled from the spec: the on-ledger escrow account produced by the Anchor
program's `initialize_escrow` handler, which is not among the Python sources.
Layout per spec section 6 and the offsets documented in
`contracts/client/escrow_client.py` (`check_escrow_exists`): an 8-byte account
discriminator, `client` (32), `provider` (32), `amount` (u64 LE), `service_id`
(4-byte length prefix plus 64 reserved bytes), `task_hash` (32), `proof_hash`
(1-byte option tag plus 32 bytes), `status` (1 byte, at offset 213),
`created_at` (i64), `bump` (1). -/
def escrowAccountData (clientPk providerPk : List Nat) (amount : Nat)
    (serviceId : List Nat) (taskHash : List Nat) (proofTag : Nat)
    (proofHash : List Nat) (status : Nat) (createdAt : Nat) (bump : Nat) :
    List Nat :=
  List.replicate 8 0 ++ clientPk ++ providerPk ++ u64le amount ++
  u32le serviceId.length ++ (serviceId ++ List.replicate (64 - serviceId.length) 0) ++
  taskHash ++ proofTag :: proofHash ++ status :: u64le createdAt ++ [bump]

/-- The status byte of an escrow account, at the offset (213) documented and
used by `check_escrow_exists` in `contracts/client/escrow_client.py`
(0 = Pending, 1 = ProofSubmitted, 2 = Completed, 3 = Cancelled). -/
def escrowStatusByte (d : List Nat) : Option Nat := d[213]?

/-- The stored `client` field of an escrow account (bytes 8..40). -/
def escrowClientField (d : List Nat) : List Nat := (d.drop 8).take 32

/-- The stored `provider` field of an escrow account (bytes 40..72). -/
def escrowProviderField (d : List Nat) : List Nat := (d.drop 40).take 32

/-- The stored `amount` field of an escrow account (u64 LE at bytes 72..80). -/
def escrowAmountField (d : List Nat) : Nat := leDecode ((d.drop 72).take 8)

/-! ## Task hashes and discriminators -/

/-- `EscrowClient.hash_task`: SHA-256 of the UTF-8 task data. -/
def hashTask (taskData : String) : List Nat := sha256 (utf8Bytes taskData)

/-- `PaymentVerifier._compute_task_hash`: hex SHA-256 of
`service_id : task_data : nonce` with the nonce in decimal. -/
def computeTaskHash (serviceId taskData : String) (nonce : Nat) : String :=
  bytesToHex (sha256 (utf8Bytes (serviceId ++ ":" ++ taskData ++ ":" ++ toString nonce)))

/-- Hard-coded `initialize_escrow` discriminator
(`contracts/client/gateway_escrow_client.py`, also `agents/x402/escrow_payment.py`). -/
def initializeEscrowDiscriminator : List Nat := [243, 160, 77, 153, 11, 92, 48, 209]

/-- Hard-coded `submit_proof` discriminator
(`GatewayEscrowClient.submit_proof_with_pda`). -/
def submitProofDiscriminator : List Nat := [54, 241, 46, 84, 4, 212, 46, 94]

/-- Hard-coded `release_payment` discriminator
(`GatewayEscrowClient.release_payment`, also `release_payment_via_gateway`). -/
def releasePaymentDiscriminator : List Nat := [24, 34, 191, 86, 145, 160, 183, 233]

/-- The spec's discriminator rule: the first 8 bytes of
`sha256("global:" ++ op_name)`.  Stated from the spec's words, to be compared
with the hard-coded byte arrays above. -/
def anchorDiscriminator (opName : String) : List Nat :=
  (sha256 (utf8Bytes ("global:" ++ opName))).take 8

/-! ## Proof verifier (`agents/x402/proof_verifier.py`) -/

/-- `ProofVerifier.verify_proof`, as a function of the observed account read
(`Except.error` models an exception during the RPC call).  Returns
`(verified, status, details)`.  Note the source never parses the status byte:
after the existence and minimum-size checks it keys on the lamport balance
alone (the `TODO` in the source defers real status parsing). -/
def verifyProof (acct : Except String (Option AccountInfo)) : Bool × String × String :=
  match acct with
  | .error e => (false, "error", "Verification error: " ++ e)
  | .ok none => (false, "not_found", "Escrow account does not exist")
  | .ok (some a) =>
    if a.data.length < 85 then (false, "pending", "Escrow account data incomplete")
    else if 2000000 < a.lamports then
      (true, "verified", "Proof verified (MVP mode - account exists)")
    else (false, "pending", "Proof not yet submitted")

/-! ## Payment gateway `/claim-payment` (`agents/x402/payment_gateway.py`) -/

/-- The `claim_payment` Flask handler as a function of the request fields, the
proof-verifier's account read, and the outcome `release_payment` would have
(success, signature, amount, error).  Returns
`(http status, status field of a 402 body, whether release_payment was invoked)`. -/
def claimPayment (escrowPda providerAddr : Option String)
    (proofRead : Except String (Option AccountInfo))
    (release : Bool × Option String × Option ℚ × Option String) :
    Nat × Option String × Bool :=
  if !strPresent escrowPda then (400, none, false)
  else if !strPresent providerAddr then (400, none, false)
  else
    let v := verifyProof proofRead
    if !v.1 then (402, some v.2.1, false)
    else if release.1 then (200, none, true)
    else (500, none, true)

/-! ## x402 payment verifier (`agents/x402/payment_verifier.py`) -/

/-- The decoded `X-Payment` payload object; each field is `none` when the JSON
key is absent (`payload.get(...)` in the source). -/
structure XPayload where
  escrowPDA : Option String
  taskHash : Option String
  serializedTransaction : Option String
  nonce : Option Nat
  serviceId : Option String
deriving DecidableEq

/-- The decoded `X-Payment` envelope object. -/
structure XEnvelope where
  x402Version : Option Int
  scheme : Option String
  network : Option String
  payload : XPayload
deriving DecidableEq

/-- Outcome of base64-decoding and JSON-parsing the `X-Payment` header string:
any input string falls into exactly one of these cases. -/
inductive HeaderDecode where
  | badBase64
  | badUtf8
  | badJson
  | ok (env : XEnvelope)
deriving DecidableEq

/-- The chain interactions `verify_x_payment_header` performs, as observed
outcomes: the initial escrow-account read, the `send_raw_transaction` result,
and the account read inside `_verify_escrow_on_chain`.  `Except.error` models
a raised exception. -/
structure ChainEnv where
  escrowAccount : Except String (Option AccountInfo)
  submitResult : Except String String
  verifyAccount : Except String (Option AccountInfo)

/-- `PaymentVerifier._verify_escrow_on_chain`: despite its parameters, the
source only checks that the account exists (the `TODO` defers decoding and
comparing amount, provider and status); `expected_amount` and
`provider_pubkey` are unused beyond a dead local conversion. -/
def verifyEscrowOnChain (readResult : Except String (Option AccountInfo))
    (_expectedAmount : ℚ) (_providerPubkey : String) : Bool × Option String :=
  match readResult with
  | .error e => (false, some ("On-chain verification failed: " ++ e))
  | .ok none => (false, some "Escrow account does not exist")
  | .ok (some _) => (true, none)

/-- The `payment_details` dictionary returned on acceptance. -/
structure PaymentDetails where
  escrowPDA : String
  taskHash : String
  serviceId : Option String
  amount : ℚ
  escrowInitTx : String
deriving DecidableEq

/-- Tail of `verify_x_payment_header` after the escrow transaction step: run
`_verify_escrow_on_chain` and build the success triple.  `submitted` carries
the serialized transaction if one was sent. -/
def finishVerification (escrowPda taskHash : String) (sid : Option String)
    (expectedAmount : ℚ) (providerPubkey : String) (signature : String)
    (submitted : Option String) (chain : ChainEnv) :
    (Bool × Option String × Option PaymentDetails) × Option String :=
  let v := verifyEscrowOnChain chain.verifyAccount expectedAmount providerPubkey
  if v.1 then
    ((true, none, some ⟨escrowPda, taskHash, sid, expectedAmount, signature⟩), submitted)
  else ((false, v.2, none), submitted)

/-- `PaymentVerifier.verify_x_payment_header` as a function of the decoded
header and the observed chain outcomes.  The first component is the returned
triple `(is_valid, error_message, payment_details)`; the second records the
serialized transaction handed to `send_raw_transaction`, or `none` when no
submission was attempted. -/
def verifyXPaymentHeader (hdr : HeaderDecode) (expectedAmount : ℚ)
    (serviceId taskData providerPubkey : String) (chain : ChainEnv) :
    (Bool × Option String × Option PaymentDetails) × Option String :=
  match hdr with
  | .badJson => ((false, some "Invalid JSON in X-Payment header", none), none)
  | .badBase64 => ((false, some "Invalid base64 encoding in X-Payment header", none), none)
  | .badUtf8 =>
    ((false, some "Payment verification error: invalid UTF-8 in header", none), none)
  | .ok env =>
    if env.x402Version != some 1 then ((false, some "Invalid x402 version", none), none)
    else if env.scheme != some "escrow" then
      ((false, some "Invalid payment scheme (expected \x27escrow\x27)", none), none)
    else if env.network != some "solana-devnet" then
      ((false, some "Invalid network (expected \x27solana-devnet\x27)", none), none)
    else if !strPresent env.payload.escrowPDA then
      ((false, some "Missing escrowPDA in payload", none), none)
    else if !strPresent env.payload.taskHash then
      ((false, some "Missing taskHash in payload", none), none)
    else if !strPresent env.payload.serializedTransaction then
      ((false, some "Missing serializedTransaction in payload", none), none)
    else if !noncePresent env.payload.nonce then
      ((false, some "Missing nonce in payload", none), none)
    else
      let taskHash := env.payload.taskHash.getD ""
      let expectedHash := computeTaskHash serviceId taskData (env.payload.nonce.getD 0)
      if taskHash != expectedHash then
        ((false, some ("Task hash mismatch (expected " ++ expectedHash ++ ")"), none), none)
      else
        match chain.escrowAccount with
        | .error e => ((false, some ("Payment verification error: " ++ e), none), none)
        | .ok (some _) =>
          finishVerification (env.payload.escrowPDA.getD "") taskHash
            env.payload.serviceId expectedAmount providerPubkey
            "ESCROW_ALREADY_EXISTS" none chain
        | .ok none =>
          match chain.submitResult with
          | .error e =>
            ((false, some ("Failed to submit transaction: " ++ e), none),
             some (env.payload.serializedTransaction.getD ""))
          | .ok sig =>
            finishVerification (env.payload.escrowPDA.getD "") taskHash
              env.payload.serviceId expectedAmount providerPubkey sig
              (some (env.payload.serializedTransaction.getD "")) chain

/-! ## Escrow client library (`contracts/client/escrow_client.py` and
`contracts/client/gateway_escrow_client.py`) -/

/-- `EscrowClient.derive_escrow_pda`, modelled up to the seed list handed to
`Pubkey.find_program_address` (an external library function): raises
`ValueError` when a provided `task_hash` is not exactly 32 bytes; otherwise
seeds are `[b"escrow", client, provider, task_hash]`, with the legacy
16-byte service-id hash seed when only a truthy `service_id` is given. -/
def deriveEscrowPdaSeeds (clientPk providerPk : List Nat) (serviceId : Option String)
    (taskHash : Option (List Nat)) : Except String (List (List Nat)) :=
  let base := [utf8Bytes "escrow", clientPk, providerPk]
  match taskHash with
  | some th =>
    if th.length != 32 then .error "task_hash must be 32 bytes"
    else .ok (base ++ [th])
  | none =>
    match serviceId with
    | some sid =>
      if sid != "" then .ok (base ++ [(sha256 (utf8Bytes sid)).take 16])
      else .ok base
    | none => .ok base

/-- `EscrowClient.check_escrow_exists` reduced to its decision: `can_reuse`
is true only when the account exists with non-empty data of at least 214
bytes and the status byte at offset 213 equals 0 (Pending). -/
def checkEscrowExists (acct : Except String (Option AccountInfo)) : Bool :=
  match acct with
  | .error _ => false
  | .ok none => false
  | .ok (some a) =>
    if a.data.isEmpty then false
    else if a.data.length < 214 then false
    else a.data.getD 213 255 == 0

/-- `GatewayEscrowClient.initialize_escrow_via_gateway` as a function of the
account read at the derived PDA and the delivery outcome (`gatewaySig = some s`
when the Gateway path succeeds with signature `s`, `none` when it fails and the
RPC fallback returns `rpcSig`).  The first component is the returned
`(signature, used_gateway)` pair; the second records the instruction data of
the submitted `initialize_escrow` transaction, or `none` when nothing was
sent. -/
def initializeEscrowViaGateway (gatewaySig : Option String) (rpcSig : String)
    (acct : Except String (Option AccountInfo)) (amount : Nat)
    (serviceId taskData : String) : (String × Bool) × Option (List Nat) :=
  let taskHash := hashTask taskData
  if checkEscrowExists acct then (("ESCROW_ALREADY_EXISTS", false), none)
  else
    let sidBytes := utf8Bytes serviceId
    let d := initializeEscrowDiscriminator ++ u64le amount ++
             u32le sidBytes.length ++ sidBytes ++ taskHash
    match gatewaySig with
    | some sig => ((sig, true), some d)
    | none => ((rpcSig, false), some d)

/-! ## Amount conversion (`agents/x402/escrow_payment.py`,
`agents/utils/solana_utils.py`) -/

/-- Python `int()` truncation toward zero, on an exact rational.  The sources
apply it to products that are exact at the integer inputs the claims quote, so
the float rounding of CPython does not intervene there. -/
def pyInt (q : ℚ) : ℤ := q.num.tdiv q.den

/-- The amount conversion on line 48 of `agents/x402/escrow_payment.py`:
`int(amount_sol * 1_000_000_000)`. -/
def solToLamports (amountSol : ℚ) : ℤ := pyInt (amountSol * 1000000000)

/-- `tokens_to_smallest_unit` from `agents/utils/solana_utils.py`:
`int(tokens * 10 ** decimals)` (the source defaults `decimals` to 6). -/
def tokensToSmallestUnit (tokens : ℚ) (decimals : ℕ) : ℤ :=
  pyInt (tokens * 10 ^ decimals)

/-- The `initialize_escrow` instruction data built by
`create_escrow_transaction` in `agents/x402/escrow_payment.py`: discriminator,
`u64` LE amount in lamports (`int(amount_sol * 1_000_000_000)`), length-prefixed
service id, 32-byte task hash. -/
def createEscrowInstructionData (amountSol : ℚ) (serviceId : String)
    (taskHash : List Nat) : List Nat :=
  let amountLamports := (solToLamports amountSol).toNat
  let sidBytes := utf8Bytes serviceId
  initializeEscrowDiscriminator ++ u64le amountLamports ++
  u32le sidBytes.length ++ sidBytes ++ taskHash

/-! ## Concrete fixtures used by the code-bug and counterexample theorems -/

/-- A concrete 32-byte client key. -/
def clientKeyFixture : List Nat := List.replicate 32 1

/-- A concrete 32-byte provider key. -/
def providerKeyFixture : List Nat := List.replicate 32 2

/-- A concrete escrow account whose decoded status byte is 0 (Pending) and
whose lamport balance exceeds the verifier's 2,000,000 threshold. -/
def pendingEscrowAccount : AccountInfo :=
  ⟨escrowAccountData clientKeyFixture providerKeyFixture 8000000 (utf8Bytes "s1")
    (List.replicate 32 9) 0 (List.replicate 32 0) 0 1700000000 254, 2000001⟩

/-- A concrete escrow account whose decoded status byte is 1 (ProofSubmitted)
but whose lamport balance is at the verifier's threshold. -/
def submittedEscrowAccount : AccountInfo :=
  ⟨escrowAccountData clientKeyFixture providerKeyFixture 8000000 (utf8Bytes "s1")
    (List.replicate 32 9) 1 (List.replicate 32 5) 1 1700000000 254, 2000000⟩

/-- A concrete escrow account whose decoded status byte is 2 (Completed). -/
def completedEscrowAccount : AccountInfo :=
  ⟨escrowAccountData clientKeyFixture providerKeyFixture 8000000 (utf8Bytes "s1")
    (List.replicate 32 9) 1 (List.replicate 32 5) 2 1700000000 254, 2500000⟩

/-- A concrete escrow account recording provider `providerKeyFixture` replaced
by a different key and a stored amount of only 1000 lamports. -/
def mismatchEscrowAccount : AccountInfo :=
  ⟨escrowAccountData clientKeyFixture (List.replicate 32 7) 1000 (utf8Bytes "s1")
    (List.replicate 32 9) 0 (List.replicate 32 0) 0 1700000000 254, 3000000⟩

/-- Hex SHA-256 of `"s1:Q4:1"`, i.e. `computeTaskHash "s1" "Q4" 1`. -/
def taskHashS1Q4n1 : String :=
  "fed918ecc42f35f08aa5611ec0fadb958f7e68ba577106250ab3d104e72ee38d"

/-- A concrete well-formed `X-Payment` envelope for service `s1`, task data
`Q4`, nonce 1, whose `taskHash` is the correct recomputation. -/
def envS1Q4 : XEnvelope :=
  ⟨some 1, some "escrow", some "solana-devnet",
   ⟨some "EscrowPda11111", some taskHashS1Q4n1, some "SerializedTx", some 1, some "s1"⟩⟩

/-- A concrete envelope identical to `envS1Q4` except that its `taskHash` is
not the recomputation of `s1`, `Q4` and nonce 1. -/
def envS1Q4BadHash : XEnvelope :=
  ⟨some 1, some "escrow", some "solana-devnet",
   ⟨some "EscrowPda11111", some "00", some "SerializedTx", some 1, some "s1"⟩⟩

/-- A concrete chain environment: no escrow account yet, submission succeeds. -/
def chainEmpty : ChainEnv := ⟨.ok none, .ok "InitSig", .ok none⟩

/-- The shape every return value of `verify_x_payment_header` has: either
accepted with no error and some payment details, or rejected with an error
message and no details. -/
def resultWellFormed (r : (Bool × Option String × Option PaymentDetails) × Option String) :
    Prop :=
  (r.1.1 = true ∧ r.1.2.1 = none ∧ (r.1.2.2).isSome = true) ∨
  (r.1.1 = false ∧ (r.1.2.1).isSome = true ∧ r.1.2.2 = none)

/-! ## Theorems -/

/-- Sanity check of the SHA-256 embedding against the standard test vector. -/
theorem sha256_abc_test_vector :
    bytesToHex (sha256 (utf8Bytes "abc")) =
      "ba7816bf8f01cfea414140de5dae2223b00361a396177a9cb410ff61f20015ad" := by
  decide

/-- C8: the hard-coded 8-byte instruction discriminators in the client library
are exactly the first 8 bytes of `sha256("global:initialize_escrow")`,
`sha256("global:submit_proof")` and `sha256("global:release_payment")`. -/
theorem discriminators_match_hash_rule :
    initializeEscrowDiscriminator = anchorDiscriminator "initialize_escrow" ∧
    submitProofDiscriminator = anchorDiscriminator "submit_proof" ∧
    releasePaymentDiscriminator = anchorDiscriminator "release_payment" := by
  decide

/-- C1 (code bug): `verify_proof` never decodes the status field.  For a
concrete escrow account whose decoded status byte is 0 (Pending) but whose
lamports exceed 2,000,000 it reports `verified=true`, and for one whose status
byte is 1 (ProofSubmitted) with lamports at the threshold it reports
`verified=false`, refuting the spec's characterisation in both directions. -/
theorem verify_proof_ignores_status_field :
    escrowStatusByte pendingEscrowAccount.data = some 0 ∧
    verifyProof (.ok (some pendingEscrowAccount)) =
      (true, "verified", "Proof verified (MVP mode - account exists)") ∧
    escrowStatusByte submittedEscrowAccount.data = some 1 ∧
    verifyProof (.ok (some submittedEscrowAccount)) =
      (false, "pending", "Proof not yet submitted") := by
  decide

/-- C2 (code bug): for a concrete `/claim-payment` request whose escrow has
decoded ledger status 0 (Pending, i.e. below ProofSubmitted) but lamports
above the verifier's threshold, the gateway does not answer 402: it proceeds
to invoke `release_payment` and answers 200. -/
theorem claim_payment_releases_below_proof_submitted :
    escrowStatusByte pendingEscrowAccount.data = some 0 ∧
    claimPayment (some "EscrowPda11111") (some "Provider11111")
        (.ok (some pendingEscrowAccount)) (true, some "ReleaseSig", some 8, none) =
      (200, none, true) := by
  decide

/-- C9: `derive_escrow_pda` raises `ValueError "task_hash must be 32 bytes"`
for every provided task hash that is not exactly 32 bytes, and for every
32-byte task hash it hands `find_program_address` exactly the seeds
`[b"escrow", client, provider, task_hash]` without raising. -/
theorem derive_escrow_pda_task_hash_contract (c p th : List Nat) (sid : Option String) :
    (th.length ≠ 32 →
      deriveEscrowPdaSeeds c p sid (some th) = .error "task_hash must be 32 bytes") ∧
    (th.length = 32 →
      deriveEscrowPdaSeeds c p sid (some th) = .ok [utf8Bytes "escrow", c, p, th]) := by
  constructor
  · intro h
    simp [deriveEscrowPdaSeeds, h]
  · intro h
    simp [deriveEscrowPdaSeeds, h]

/-- Witness for C9 at concrete inputs: a 3-byte hash is rejected, a 32-byte
hash yields exactly the four documented seeds. -/
theorem derive_escrow_pda_task_hash_contract_witness :
    deriveEscrowPdaSeeds clientKeyFixture providerKeyFixture none (some [1, 2, 3]) =
      .error "task_hash must be 32 bytes" ∧
    deriveEscrowPdaSeeds clientKeyFixture providerKeyFixture none
        (some (List.replicate 32 9)) =
      .ok [utf8Bytes "escrow", clientKeyFixture, providerKeyFixture,
           List.replicate 32 9] :=
  ⟨(derive_escrow_pda_task_hash_contract clientKeyFixture providerKeyFixture
      [1, 2, 3] none).1 (by decide),
   (derive_escrow_pda_task_hash_contract clientKeyFixture providerKeyFixture
      (List.replicate 32 9) none).2 (by decide)⟩

/-- Python `int()` of an integer-valued rational is the integer itself. -/
theorem pyInt_natCast (n : ℕ) : pyInt (n : ℚ) = n := by
  simp [pyInt, Rat.num_natCast, Rat.den_natCast]

/-- `int(amount_sol * 1_000_000_000)` at a natural display amount. -/
theorem solToLamports_natCast (A : ℕ) :
    solToLamports (A : ℚ) = (A : ℤ) * 1000000000 := by
  unfold solToLamports
  have h : ((A : ℚ) * 1000000000) = ((A * 1000000000 : ℕ) : ℚ) := by
    push_cast
    ring
  rw [h, pyInt_natCast]
  push_cast
  ring

/-- C7 counterexample: answering a 402 challenge advertising `amount = 8`, the
`initialize_escrow` instruction built by `create_escrow_transaction` carries
`8_000_000_000` in its u64 amount field — not the `8_000_000` the claim
states for a 6-decimal token. -/
theorem create_escrow_amount_eight_counterexample :
    leDecode (((createEscrowInstructionData 8 "s1" (List.replicate 32 0)).drop 8).take 8) =
      8000000000 ∧ (8000000000 : ℕ) ≠ 8000000 := by
  constructor
  · have h8 : ((8 : ℚ)) = ((8 : ℕ) : ℚ) := by norm_num
    have hrfl : ((createEscrowInstructionData 8 "s1" (List.replicate 32 0)).drop 8).take 8 =
        u64le ((solToLamports 8).toNat) := rfl
    rw [hrfl, h8, solToLamports_natCast]
    decide
  · decide

/-- C7 as amended: the x402 client converts the challenge's decimal amount
with the SOL factor `10^9` (`int(amount_sol * 1_000_000_000)`), so a
challenge amount `A` yields an instruction amount of `A * 10^9` smallest
units (whenever that fits a u64); `tokens_to_smallest_unit` with its default
6 decimals exists in `solana_utils.py` but is not what
`create_escrow_transaction` uses. -/
theorem create_escrow_amount_is_sol_times_1e9 (A : ℕ) (sid : String) (th : List Nat)
    (hfit : A * 1000000000 < 18446744073709551616) :
    ((createEscrowInstructionData (A : ℚ) sid th).drop 8).take 8 =
      u64le (A * 1000000000) ∧
    leDecode (u64le (A * 1000000000)) = A * 1000000000 ∧
    tokensToSmallestUnit (A : ℚ) 6 = (A : ℤ) * 1000000 := by
  have hrfl : ((createEscrowInstructionData (A : ℚ) sid th).drop 8).take 8 =
      u64le ((solToLamports (A : ℚ)).toNat) := rfl
  have htoNat : ((solToLamports (A : ℚ))).toNat = A * 1000000000 := by
    rw [solToLamports_natCast]
    omega
  refine ⟨?_, ?_, ?_⟩
  · rw [hrfl, htoNat]
  · have d2 : ∀ m : ℕ, m / 65536 = m / 256 / 256 := fun m => by
      rw [Nat.div_div_eq_div_mul]
    have d3 : ∀ m : ℕ, m / 16777216 = m / 65536 / 256 := fun m => by
      rw [Nat.div_div_eq_div_mul]
    have d4 : ∀ m : ℕ, m / 4294967296 = m / 16777216 / 256 := fun m => by
      rw [Nat.div_div_eq_div_mul]
    have d5 : ∀ m : ℕ, m / 1099511627776 = m / 4294967296 / 256 := fun m => by
      rw [Nat.div_div_eq_div_mul]
    have d6 : ∀ m : ℕ, m / 281474976710656 = m / 1099511627776 / 256 := fun m => by
      rw [Nat.div_div_eq_div_mul]
    have d7 : ∀ m : ℕ, m / 72057594037927936 = m / 281474976710656 / 256 := fun m => by
      rw [Nat.div_div_eq_div_mul]
    simp only [u64le, leDecode]
    simp only [d7, d6, d5, d4, d3, d2]
    omega
  · unfold tokensToSmallestUnit
    have h : ((A : ℚ) * 10 ^ 6) = ((A * 1000000 : ℕ) : ℚ) := by
      push_cast
      ring
    rw [h, pyInt_natCast]
    push_cast
    ring

/-- Witness for the amended C7 at the spec's own example: challenge amount 8
produces the instruction amount bytes of 8,000,000,000. -/
theorem create_escrow_amount_is_sol_times_1e9_witness :
    ((createEscrowInstructionData ((8 : ℕ) : ℚ) "s1" (List.replicate 32 0)).drop 8).take 8 =
      u64le 8000000000 ∧
    leDecode (u64le 8000000000) = 8000000000 ∧
    tokensToSmallestUnit ((8 : ℕ) : ℚ) 6 = ((8 : ℕ) : ℤ) * 1000000 :=
  create_escrow_amount_is_sol_times_1e9 8 "s1" (List.replicate 32 0) (by decide)

/-- C5: when the account at the derived PDA is absent, the first
`initialize_escrow_via_gateway` call builds and submits an `initialize_escrow`
transaction; when the account exists with status byte 0 (Pending) — the state
the spec-modelled on-ledger handler leaves behind — the call returns the
sentinel `("ESCROW_ALREADY_EXISTS", used_gateway=false)` and submits nothing,
so a second identical call creates no second account. -/
theorem initialize_escrow_idempotent (g1 g2 : Option String) (r1 r2 : String)
    (amount : Nat) (sid td : String) (a : AccountInfo)
    (hne : a.data ≠ []) (hlen : 214 ≤ a.data.length)
    (hst : a.data.getD 213 255 = 0) :
    ((initializeEscrowViaGateway g1 r1 (.ok none) amount sid td).2).isSome ∧
    initializeEscrowViaGateway g2 r2 (.ok (some a)) amount sid td =
      (("ESCROW_ALREADY_EXISTS", false), none) := by
  constructor
  · unfold initializeEscrowViaGateway checkEscrowExists
    cases g1 <;> simp
  · have h1 : a.data.isEmpty = false := by
      simpa [List.isEmpty_iff] using hne
    have hst2 : a.data[213]?.getD 255 = 0 := by
      simpa [List.getD] using hst
    unfold initializeEscrowViaGateway checkEscrowExists
    simp [h1, Nat.not_lt.mpr hlen, hst2]

/-- Witness for C5: first call on an empty slot submits a transaction; second
call, seeing the concrete Pending account the init leaves behind, reports the
sentinel and submits nothing. -/
theorem initialize_escrow_idempotent_witness :
    ((initializeEscrowViaGateway (some "GwSig") "RpcSig" (.ok none) 8000000 "s1" "Q4").2).isSome ∧
    initializeEscrowViaGateway (some "GwSig2") "RpcSig2"
        (.ok (some pendingEscrowAccount)) 8000000 "s1" "Q4" =
      (("ESCROW_ALREADY_EXISTS", false), none) :=
  initialize_escrow_idempotent (some "GwSig") (some "GwSig2") "RpcSig" "RpcSig2"
    8000000 "s1" "Q4" pendingEscrowAccount (by decide) (by decide) (by decide)

/-- C6 counterexample: for a concrete escrow account in status 2 (Completed),
`initialize_escrow_via_gateway` does not stop at reporting the state — it
builds and submits a fresh `initialize_escrow` transaction on the same seeds
(the second component records the submitted instruction data), returning the
RPC signature rather than any refusal. -/
theorem initialize_escrow_completed_counterexample :
    escrowStatusByte completedEscrowAccount.data = some 2 ∧
    (initializeEscrowViaGateway none "RpcSig" (.ok (some completedEscrowAccount))
        8000000 "s1" "Q4").1 = ("RpcSig", false) ∧
    ((initializeEscrowViaGateway none "RpcSig" (.ok (some completedEscrowAccount))
        8000000 "s1" "Q4").2).isSome := by
  decide

/-- C6 as amended: for an existing escrow in any non-Pending state,
`check_escrow_exists` reports it as non-reusable (`can_reuse = false`, logging
the state), and `initialize_escrow_via_gateway` — rather than refusing — goes
on to build and submit a new `initialize_escrow` transaction on the same
seeds. -/
theorem initialize_escrow_nonpending_submits (g : Option String) (r : String)
    (amount : Nat) (sid td : String) (a : AccountInfo)
    (hne : a.data ≠ []) (hlen : 214 ≤ a.data.length)
    (hst : a.data.getD 213 255 ≠ 0) :
    checkEscrowExists (.ok (some a)) = false ∧
    (initializeEscrowViaGateway g r (.ok (some a)) amount sid td).2 =
      some (initializeEscrowDiscriminator ++ u64le amount ++
        u32le (utf8Bytes sid).length ++ utf8Bytes sid ++ hashTask td) := by
  have h1 : a.data.isEmpty = false := by
    simpa [List.isEmpty_iff] using hne
  have hst2 : ¬ a.data[213]?.getD 255 = 0 := by
    simpa [List.getD] using hst
  have hc : checkEscrowExists (.ok (some a)) = false := by
    unfold checkEscrowExists
    simp [h1, Nat.not_lt.mpr hlen, hst2]
  refine ⟨hc, ?_⟩
  unfold initializeEscrowViaGateway
  rw [hc]
  cases g <;> simp

/-- Witness for the amended C6 at the concrete Completed account. -/
theorem initialize_escrow_nonpending_submits_witness :
    checkEscrowExists (.ok (some completedEscrowAccount)) = false ∧
    (initializeEscrowViaGateway (some "GwSig") "RpcSig"
        (.ok (some completedEscrowAccount)) 8000000 "s1" "Q4").2 =
      some (initializeEscrowDiscriminator ++ u64le 8000000 ++
        u32le (utf8Bytes "s1").length ++ utf8Bytes "s1" ++ hashTask "Q4") :=
  initialize_escrow_nonpending_submits (some "GwSig") "RpcSig" 8000000 "s1" "Q4"
    completedEscrowAccount (by decide) (by decide) (by decide)

/-- C4 (code bug): `_verify_escrow_on_chain` never decodes the account (its
`TODO` defers the client/provider/amount checks the spec describes).  A
concrete existing account that stores a different provider and an amount of
only 1000 is accepted, and the full header verification accepts the payment
without resubmitting the embedded transaction. -/
theorem verify_escrow_on_chain_skips_field_checks :
    escrowProviderField mismatchEscrowAccount.data = List.replicate 32 7 ∧
    escrowProviderField mismatchEscrowAccount.data ≠ providerKeyFixture ∧
    escrowAmountField mismatchEscrowAccount.data = 1000 ∧
    verifyEscrowOnChain (.ok (some mismatchEscrowAccount)) 8 "Provider11111" =
      (true, none) ∧
    verifyXPaymentHeader (.ok envS1Q4) 8 "s1" "Q4" "Provider11111"
        ⟨.ok (some mismatchEscrowAccount), .ok "UnusedSig",
         .ok (some mismatchEscrowAccount)⟩ =
      ((true, none, some ⟨"EscrowPda11111", taskHashS1Q4n1, some "s1", 8,
        "ESCROW_ALREADY_EXISTS"⟩), none) := by
  decide

/-- The tail of the verifier always returns a well-formed triple. -/
theorem finishVerification_wellFormed (pda th : String) (sidO : Option String)
    (amt : ℚ) (prov sig : String) (sub : Option String) (chain : ChainEnv) :
    resultWellFormed (finishVerification pda th sidO amt prov sig sub chain) := by
  unfold resultWellFormed finishVerification verifyEscrowOnChain
  rcases chain with ⟨ea, sr, va⟩
  rcases va with e | a
  · simp
  · rcases a with _ | a <;> simp

/-- C10: `verify_x_payment_header` is total over its inputs: every decode or
validation failure, missing field, task-hash mismatch, or failed submission
yields `(False, error_message, None)`, and `is_valid = True` is returned only
together with a non-`None` payment-details dictionary (and no error). -/
theorem verify_x_payment_header_total (hdr : HeaderDecode) (amt : ℚ)
    (sid td prov : String) (chain : ChainEnv) :
    resultWellFormed (verifyXPaymentHeader hdr amt sid td prov chain) := by
  cases hdr with
  | badBase64 => simp [resultWellFormed, verifyXPaymentHeader]
  | badUtf8 => simp [resultWellFormed, verifyXPaymentHeader]
  | badJson => simp [resultWellFormed, verifyXPaymentHeader]
  | ok env =>
    simp only [verifyXPaymentHeader]
    repeat' split
    any_goals exact finishVerification_wellFormed ..
    all_goals simp [resultWellFormed]

/-- Any envelope whose `taskHash` field is not the recomputed
`SHA256(service_id : task_data : nonce)` is rejected, and no transaction is
submitted for it. -/
theorem taskhash_mismatch_rejected (env : XEnvelope) (amt : ℚ)
    (sid td prov : String) (chain : ChainEnv)
    (hne : env.payload.taskHash ≠
      some (computeTaskHash sid td (env.payload.nonce.getD 0))) :
    (verifyXPaymentHeader (.ok env) amt sid td prov chain).1.1 = false ∧
    (verifyXPaymentHeader (.ok env) amt sid td prov chain).2 = none := by
  rcases hth : env.payload.taskHash with _ | s
  · simp only [verifyXPaymentHeader, hth]
    repeat' split
    all_goals simp_all [strPresent]
  · have hs : s ≠ computeTaskHash sid td (env.payload.nonce.getD 0) := by
      intro h
      exact hne (by rw [hth, h])
    simp only [verifyXPaymentHeader, hth]
    repeat' split
    all_goals simp_all

/-- C3: if the provider's verifier accepts an envelope then its
`payload.taskHash` equals the hex SHA-256 of
`service_id : task_data : nonce` recomputed from the challenge echo and the
envelope's nonce; an envelope whose hash differs is rejected before any
transaction is submitted, and — when all earlier structural checks pass — with
exactly the task-hash-mismatch error. -/
theorem x_payment_task_hash_binding (env : XEnvelope) (amt : ℚ)
    (sid td prov : String) (chain : ChainEnv) :
    ((verifyXPaymentHeader (.ok env) amt sid td prov chain).1.1 = true →
      env.payload.taskHash =
        some (computeTaskHash sid td (env.payload.nonce.getD 0))) ∧
    (env.payload.taskHash ≠
        some (computeTaskHash sid td (env.payload.nonce.getD 0)) →
      (verifyXPaymentHeader (.ok env) amt sid td prov chain).1.1 = false ∧
      (verifyXPaymentHeader (.ok env) amt sid td prov chain).2 = none) ∧
    (∀ th : String, env.payload.taskHash = some th → th ≠ "" →
      th ≠ computeTaskHash sid td (env.payload.nonce.getD 0) →
      env.x402Version = some 1 → env.scheme = some "escrow" →
      env.network = some "solana-devnet" →
      strPresent env.payload.escrowPDA = true →
      strPresent env.payload.serializedTransaction = true →
      noncePresent env.payload.nonce = true →
      verifyXPaymentHeader (.ok env) amt sid td prov chain =
        ((false, some ("Task hash mismatch (expected " ++
          computeTaskHash sid td (env.payload.nonce.getD 0) ++ ")"), none), none)) := by
  refine ⟨?_, taskhash_mismatch_rejected env amt sid td prov chain, ?_⟩
  · intro hacc
    by_contra hne
    have h := (taskhash_mismatch_rejected env amt sid td prov chain hne).1
    rw [hacc] at h
    simp at h
  · intro th hth hthne hne hv hs hn hpda htx hnonce
    have hpres : strPresent (some th) = true := by simp [strPresent, hthne]
    simp only [verifyXPaymentHeader, hv, hs, hn, hth, hpda, htx, hnonce, hpres]
    simp [hthne, hne]

/-- Witness for C3: a concrete envelope with `taskHash = "00"` against
service `s1`, task data `Q4`, nonce 1 is rejected with the task-hash-mismatch
error and no transaction submission. -/
theorem x_payment_task_hash_binding_witness :
    verifyXPaymentHeader (.ok envS1Q4BadHash) 8 "s1" "Q4" "Provider11111" chainEmpty =
      ((false, some ("Task hash mismatch (expected " ++
        computeTaskHash "s1" "Q4" 1 ++ ")"), none), none) :=
  (x_payment_task_hash_binding envS1Q4BadHash 8 "s1" "Q4" "Provider11111"
      chainEmpty).2.2 "00" rfl (by decide) (by decide) rfl rfl rfl (by decide)
      (by decide) (by decide)

end AEP
